import Mathlib

/-!
Shallow embedding of the Mandelbrot explorer (`src/main.py`).

Machine floating point (`float64`) is modelled by exact rationals `ℚ`; the
claims under study concern ordering, sign and exact index/value facts that are
faithful under this idealisation.  Pixel and iteration indices are `ℕ`, the
zoom slider value is `ℤ`.
-/

/-- One escape-time update of a single grid cell, translated from the body of
the triple loop in `mandelbrot` (src/main.py lines 23-29).  A cell state is
`(z, d)` with `z : ℚ × ℚ` the current iterate (real, imaginary part) and
`d : ℕ` the `div_time` entry.  The cell is updated only while `d == 0`:
`z ← z*z + c`, then if `re(z)^2 + im(z)^2 > 4` the loop index `i` is recorded
in `d`. -/
def cellStep (c : ℚ × ℚ) (i : ℕ) (s : (ℚ × ℚ) × ℕ) : (ℚ × ℚ) × ℕ :=
  if s.2 = 0 then
    let z : ℚ × ℚ := (s.1.1 * s.1.1 - s.1.2 * s.1.2 + c.1,
                      s.1.1 * s.1.2 + s.1.2 * s.1.1 + c.2)
    if 4 < z.1 * z.1 + z.2 * z.2 then (z, i) else (z, s.2)
  else s

/-- The full per-cell run of the outer `for i in range(max_iter)` loop,
starting from `Z = 0`, `div_time = 0`. -/
def cellFold (c : ℚ × ℚ) (maxIter : ℕ) : (ℚ × ℚ) × ℕ :=
  (List.range maxIter).foldl (fun s i => cellStep c i s) (((0 : ℚ), (0 : ℚ)), 0)

/-- The `div_time` value a single cell ends with. -/
def divTime (c : ℚ × ℚ) (maxIter : ℕ) : ℕ :=
  (cellFold c maxIter).2

/-- `np.linspace(a, b, n)`: `n` evenly spaced samples, endpoints included;
for `n = 1` the single sample is `a`, for `n = 0` the list is empty. -/
def linspace (a b : ℚ) (n : ℕ) : List ℚ :=
  (List.range n).map
    (fun k : ℕ => if n ≤ 1 then a else a + (k : ℚ) * (b - a) / ((n : ℚ) - 1))

/-- Map a function over every cell of a 2-dimensional list. -/
def map2 {α β : Type} (f : α → β) (g : List (List α)) : List (List β) :=
  g.map (fun row => row.map f)

/-- Pointwise zip of two 2-dimensional lists. -/
def zip2With {α β γ : Type} (f : α → β → γ) (A : List (List α)) (B : List (List β)) :
    List (List γ) :=
  List.zipWith (fun ra rb => List.zipWith f ra rb) A B

/-- One pass of the outer loop `for i in range(max_iter)` over the whole grid:
the two inner loops update every cell once (each cell only reads and writes its
own entry of `Z` and `div_time`, so the in-place sweep is a pointwise map). -/
def gridStep (C : List (List (ℚ × ℚ))) (i : ℕ) (S : List (List ((ℚ × ℚ) × ℕ))) :
    List (List ((ℚ × ℚ) × ℕ)) :=
  zip2With (fun c s => cellStep c i s) C S

/-- The sample grid `C = x + y[:, None] * 1j` of `mandelbrot`
(src/main.py lines 17-19): row `j`, column `k` holds the complex sample
`(x[k], y[j])`. -/
def sampleGrid (h w : ℕ) (x_min x_max y_min y_max : ℚ) : List (List (ℚ × ℚ)) :=
  (linspace y_min y_max h).map (fun yv => (linspace x_min x_max w).map (fun xv => (xv, yv)))

/-- `mandelbrot(h, w, x_min, x_max, y_min, y_max, max_iter)`
(src/main.py lines 16-31): build the sample grid, initialise `Z` and
`div_time` to zero, run `max_iter` sweeps of the escape-time update, and
return the `div_time` matrix. -/
def mandelbrot (h w : ℕ) (x_min x_max y_min y_max : ℚ) (max_iter : ℕ) :
    List (List ℕ) :=
  let C := sampleGrid h w x_min x_max y_min y_max
  let init := map2 (fun _ => (((0 : ℚ), (0 : ℚ)), (0 : ℕ))) C
  map2 Prod.snd ((List.range max_iter).foldl (fun S i => gridStep C i S) init)

/-- The viewport bounds held in `st.session_state`
(`x_min`, `x_max`, `y_min`, `y_max`, src/main.py lines 47-54). -/
structure Viewport where
  x_min : ℚ
  x_max : ℚ
  y_min : ℚ
  y_max : ℚ
deriving DecidableEq, Repr

/-- The magnification multiplier computed by the click handler
(src/main.py lines 134-138): `1 / zoom_factor` when the slider value is
positive, `abs(zoom_factor)` otherwise (the `else` branch also receives 0). -/
def zoomMultiplier (zf : ℤ) : ℚ :=
  if 0 < zf then 1 / (zf : ℚ) else |(zf : ℚ)|

/-- The click-to-plane mapping for the x coordinate (src/main.py line 128):
`new_x = x_min + (x / 1600) * x_range`. -/
def clickToPlaneX (x_min x_max px : ℚ) : ℚ :=
  x_min + px / 1600 * (x_max - x_min)

/-- The click-to-plane mapping for the y coordinate (src/main.py line 129):
`new_y = y_min + (y / 900) * y_range`. -/
def clickToPlaneY (y_min y_max py : ℚ) : ℚ :=
  y_min + py / 900 * (y_max - y_min)

/-- The viewport update of the click handler (src/main.py lines 126-146):
recenter on the clicked plane point and scale both ranges by the multiplier. -/
def recenterAndZoom (v : Viewport) (px py : ℚ) (zf : ℤ) : Viewport :=
  let x_range := v.x_max - v.x_min
  let y_range := v.y_max - v.y_min
  let new_x := clickToPlaneX v.x_min v.x_max px
  let new_y := clickToPlaneY v.y_min v.y_max py
  let m := zoomMultiplier zf
  let x_range_zoomed := x_range * m
  let y_range_zoomed := y_range * m
  ⟨new_x - x_range_zoomed / 2, new_x + x_range_zoomed / 2,
   new_y - y_range_zoomed / 2, new_y + y_range_zoomed / 2⟩

/-- `total_zoom` after a sequence of clicks with the given slider values
(src/main.py line 149, `st.session_state.total_zoom *= zoom_factor`),
starting from the initial value `1.0` (line 60). -/
def totalZoomAfter (zfs : List ℤ) : ℚ :=
  zfs.foldl (fun t zf => t * zoomMultiplier zf) 1

/-- The `image_quality` values reachable in the quality-upgrade logic:
`very_low` (draft) and `high` (refined), src/main.py lines 70, 154, 189. -/
inductive Quality where
  | very_low : Quality
  | high : Quality
deriving DecidableEq, Repr

/-- Outcome of one run of the quality-upgrade loop: the list of
high-iteration render requests it issued (each recorded by its `max_iter`
argument) and the final `image_quality`. -/
structure UpgradeOutcome where
  highRenders : List ℕ
  quality : Quality
deriving DecidableEq, Repr

/-- The quality-upgrade busy-wait loop (src/main.py lines 174-192), in discrete
time: one unit per `time.sleep(1)` poll, `elapsed` the whole seconds since
`last_click_time`.  While `elapsed < 10` the loop sleeps one unit and then
checks the canvas; if an interaction is observed at the new time it breaks
with no render and `image_quality` still `'very_low'` (the draft cycle
restarts).  When the threshold is reached with no interaction the `else`
branch issues exactly one `max_iter=500` render and sets quality `'high'`. -/
def upgradeLoop (interaction : ℕ → Bool) (elapsed : ℕ) : UpgradeOutcome :=
  if h : elapsed < 10 then
    if interaction (elapsed + 1) then ⟨[], Quality.very_low⟩
    else upgradeLoop interaction (elapsed + 1)
  else ⟨[500], Quality.high⟩
termination_by 10 - elapsed
decreasing_by simp_wf; omega

/-! ### Structural lemmas -/

lemma zipWith_self_map {α β γ : Type} (g : α → β → γ) (f : α → β) :
    ∀ l : List α, List.zipWith g l (l.map f) = l.map (fun a => g a (f a)) := by
  intro l
  induction l with
  | nil => rfl
  | cons x xs ih => simp [ih]

lemma zip2With_map2_self {α β γ : Type} (g : α → β → γ) (f : α → β)
    (C : List (List α)) :
    zip2With g C (map2 f C) = map2 (fun a => g a (f a)) C := by
  induction C with
  | nil => rfl
  | cons r rs ih =>
      simp only [zip2With, map2, List.map_cons, List.zipWith_cons_cons] at *
      rw [zipWith_self_map]
      exact congrArg _ ih

lemma cellFold_succ (c : ℚ × ℚ) (n : ℕ) :
    cellFold c (n + 1) = cellStep c n (cellFold c n) := by
  simp [cellFold, List.range_succ]

/-- Because each cell of the sweep reads and writes only its own entry, the
whole-grid iteration of `mandelbrot` is the pointwise per-cell iteration. -/
lemma foldl_gridStep_eq (C : List (List (ℚ × ℚ))) (n : ℕ) :
    (List.range n).foldl (fun S i => gridStep C i S)
        (map2 (fun _ => (((0 : ℚ), (0 : ℚ)), (0 : ℕ))) C)
      = map2 (fun c => cellFold c n) C := by
  induction n with
  | zero => simp [cellFold, map2]
  | succ n ih =>
      rw [List.range_succ, List.foldl_append, List.foldl_cons, List.foldl_nil, ih]
      unfold gridStep
      rw [zip2With_map2_self]
      simp [map2, cellFold_succ]

lemma mandelbrot_eq (h w : ℕ) (xa xb ya yb : ℚ) (m : ℕ) :
    mandelbrot h w xa xb ya yb m
      = map2 (fun c => divTime c m) (sampleGrid h w xa xb ya yb) := by
  show map2 Prod.snd
      ((List.range m).foldl (fun S i => gridStep (sampleGrid h w xa xb ya yb) i S)
        (map2 (fun _ => (((0 : ℚ), (0 : ℚ)), (0 : ℕ))) (sampleGrid h w xa xb ya yb)))
    = _
  rw [foldl_gridStep_eq]
  simp [map2, divTime, List.map_map, Function.comp]

lemma length_linspace (a b : ℚ) (n : ℕ) : (linspace a b n).length = n := by
  rw [linspace, List.length_map, List.length_range]

lemma linspace_getD (a b : ℚ) (n k : ℕ) (hk : k < n) :
    (linspace a b n).getD k 0
      = if n ≤ 1 then a else a + (k : ℚ) * (b - a) / ((n : ℚ) - 1) := by
  simp only [linspace, List.getD_eq_getElem?_getD, List.getElem?_map,
    List.getElem?_range hk, Option.map_some', Option.getD_some]

lemma mandelbrot_length (h w : ℕ) (xa xb ya yb : ℚ) (m : ℕ) :
    (mandelbrot h w xa xb ya yb m).length = h := by
  rw [mandelbrot_eq]
  simp [map2, sampleGrid, length_linspace]

lemma mandelbrot_row_length (h w : ℕ) (xa xb ya yb : ℚ) (m : ℕ)
    (row : List ℕ) (hrow : row ∈ mandelbrot h w xa xb ya yb m) :
    row.length = w := by
  rw [mandelbrot_eq] at hrow
  simp only [map2, sampleGrid, List.map_map, List.mem_map] at hrow
  obtain ⟨yv, _, hy⟩ := hrow
  simp [← hy, length_linspace]

/-- Entry `(j, k)` of the returned grid is the per-cell escape count of the
sample `(x[k], y[j])`. -/
lemma mandelbrot_getD (h w : ℕ) (xa xb ya yb : ℚ) (m j k : ℕ)
    (hj : j < h) (hk : k < w) :
    ((mandelbrot h w xa xb ya yb m).getD j []).getD k 0
      = divTime ((linspace xa xb w).getD k 0, (linspace ya yb h).getD j 0) m := by
  rw [mandelbrot_eq]
  simp only [map2, sampleGrid, List.map_map, List.getD_eq_getElem?_getD, linspace,
    List.getElem?_map, List.getElem?_range hj, List.getElem?_range hk,
    Option.map_some', Option.getD_some, Function.comp]

lemma cellFold_origin (n : ℕ) : cellFold (0, 0) n = (((0 : ℚ), (0 : ℚ)), 0) := by
  induction n with
  | zero => rfl
  | succ n ih => rw [cellFold_succ, ih]; norm_num [cellStep]

lemma cellFold_three (n : ℕ) (hn : 2 ≤ n) : cellFold (3, 0) n = ((12, 0), 1) := by
  induction n, hn using Nat.le_induction with
  | base => norm_num [cellFold, cellStep, List.range_succ]
  | succ n hn ih => rw [cellFold_succ, ih]; norm_num [cellStep]

lemma cellFold_snd_bound (c : ℚ × ℚ) : ∀ n, (cellFold c n).2 = 0 ∨ (cellFold c n).2 < n := by
  intro n
  induction n with
  | zero => left; rfl
  | succ n ih =>
      rw [cellFold_succ]
      by_cases h0 : (cellFold c n).2 = 0
      · simp only [cellStep, if_pos h0]
        split_ifs with hesc
        · right; omega
        · left; exact h0
      · simp only [cellStep, if_neg h0]
        rcases ih with h | h
        · exact absurd h h0
        · right; omega

lemma divTime_lt (c : ℚ × ℚ) (n : ℕ) (hn : 1 ≤ n) : divTime c n < n := by
  rcases cellFold_snd_bound c n with h | h
  · unfold divTime; omega
  · exact h

lemma zoomMultiplier_pos (zf : ℤ) (h : zf ≠ 0) : 0 < zoomMultiplier zf := by
  unfold zoomMultiplier
  split_ifs with hpos
  · exact one_div_pos.mpr (by exact_mod_cast hpos)
  · exact abs_pos.mpr (Int.cast_ne_zero.mpr h)

lemma totalZoom_foldl_pos :
    ∀ (zfs : List ℤ), (∀ zf ∈ zfs, zf ≠ 0) →
      ∀ t : ℚ, 0 < t → 0 < zfs.foldl (fun t zf => t * zoomMultiplier zf) t := by
  intro zfs
  induction zfs with
  | nil => intro _ t ht; simpa using ht
  | cons z zs ih =>
      intro h t ht
      simp only [List.foldl_cons]
      exact ih (fun zf hm => h zf (List.mem_cons_of_mem _ hm)) _
        (mul_pos ht (zoomMultiplier_pos z (h z (List.mem_cons_self _ _))))

lemma upgradeLoop_ge (interaction : ℕ → Bool) (e : ℕ) (he : 10 ≤ e) :
    upgradeLoop interaction e = ⟨[500], Quality.high⟩ := by
  rw [upgradeLoop]
  simp [Nat.not_lt.mpr he]

lemma upgradeLoop_quiet (interaction : ℕ → Bool)
    (h : ∀ t, t ≤ 10 → interaction t = false) :
    ∀ d e, 10 ≤ e + d → upgradeLoop interaction e = ⟨[500], Quality.high⟩ := by
  intro d
  induction d with
  | zero => intro e he; exact upgradeLoop_ge _ e (by omega)
  | succ d ih =>
      intro e he
      by_cases h10 : e < 10
      · rw [upgradeLoop]
        simp only [h10, dif_pos, h (e + 1) (by omega), Bool.false_eq_true, if_false]
        exact ih (e + 1) (by omega)
      · exact upgradeLoop_ge _ e (by omega)

lemma upgradeLoop_break (interaction : ℕ → Bool) (t₀ : ℕ) (ht : interaction t₀ = true)
    (hq : ∀ s, s < t₀ → interaction s = false) (h10 : t₀ ≤ 10) :
    ∀ d e, t₀ ≤ e + d → e < t₀ → upgradeLoop interaction e = ⟨[], Quality.very_low⟩ := by
  intro d
  induction d with
  | zero => intro e he hlt; omega
  | succ d ih =>
      intro e he hlt
      have he10 : e < 10 := by omega
      rw [upgradeLoop]
      rcases Nat.lt_or_ge (e + 1) t₀ with hlt2 | hge
      · simp only [he10, dif_pos, hq (e + 1) hlt2, Bool.false_eq_true, if_false]
        exact ih (e + 1) (by omega) hlt2
      · have heq : e + 1 = t₀ := by omega
        simp [he10, heq, ht]

/-! ### Claim theorems -/

/-- C1 counterexample: with `zoom_factor = 0` (inside the allowed slider range
`[-1000, 1000]`) the handler's multiplier is `abs(0) = 0`, both zoomed ranges
collapse, and the produced viewport violates `x_min < x_max`. -/
theorem zoomFactor_zero_breaks_viewport_ordering :
    ((-5/2 : ℚ) < 1 ∧ (-5/4 : ℚ) < 5/4) ∧
    (-1000 ≤ (0 : ℤ) ∧ (0 : ℤ) ≤ 1000) ∧
    ((0 : ℚ) ≤ 800 ∧ (800 : ℚ) < 1600 ∧ (0 : ℚ) ≤ 450 ∧ (450 : ℚ) < 900) ∧
    ¬ ((recenterAndZoom ⟨-5/2, 1, -5/4, 5/4⟩ 800 450 0).x_min
        < (recenterAndZoom ⟨-5/2, 1, -5/4, 5/4⟩ 800 450 0).x_max) := by
  norm_num [recenterAndZoom, clickToPlaneX, clickToPlaneY, zoomMultiplier]

/-- C1 (amended to nonzero zoom factors): for every viewport with
`x_min < x_max`, `y_min < y_max`, every click pixel in `[0,1600) × [0,900)`,
and every `zoomFactorSetting` in `[-1000, 1000]` other than `0`, the viewport
produced by the click handler again satisfies `x_min < x_max` and
`y_min < y_max`. -/
theorem recenterAndZoom_preserves_ordering (v : Viewport) (px py : ℚ) (zf : ℤ)
    (hx : v.x_min < v.x_max) (hy : v.y_min < v.y_max)
    (hzl : -1000 ≤ zf) (hzu : zf ≤ 1000) (hz : zf ≠ 0)
    (hpx0 : 0 ≤ px) (hpx1 : px < 1600) (hpy0 : 0 ≤ py) (hpy1 : py < 900) :
    (recenterAndZoom v px py zf).x_min < (recenterAndZoom v px py zf).x_max ∧
    (recenterAndZoom v px py zf).y_min < (recenterAndZoom v px py zf).y_max := by
  have hm := zoomMultiplier_pos zf hz
  have hxr : 0 < (v.x_max - v.x_min) * zoomMultiplier zf :=
    mul_pos (by linarith) hm
  have hyr : 0 < (v.y_max - v.y_min) * zoomMultiplier zf :=
    mul_pos (by linarith) hm
  constructor <;> simp only [recenterAndZoom] <;> linarith

/-- Witness for `recenterAndZoom_preserves_ordering` at the session's initial
viewport, a center click and zoom factor 10. -/
theorem recenterAndZoom_preserves_ordering_witness :
    (recenterAndZoom ⟨-5/2, 1, -5/4, 5/4⟩ 800 450 10).x_min
      < (recenterAndZoom ⟨-5/2, 1, -5/4, 5/4⟩ 800 450 10).x_max ∧
    (recenterAndZoom ⟨-5/2, 1, -5/4, 5/4⟩ 800 450 10).y_min
      < (recenterAndZoom ⟨-5/2, 1, -5/4, 5/4⟩ 800 450 10).y_max :=
  recenterAndZoom_preserves_ordering ⟨-5/2, 1, -5/4, 5/4⟩ 800 450 10
    (by norm_num) (by norm_num) (by norm_num) (by norm_num) (by norm_num)
    (by norm_num) (by norm_num) (by norm_num) (by norm_num)

/-- C2 counterexample: at `zoom_factor = 0` the handler computes the
multiplier `abs(0) = 0`: it neither fails nor treats `0` as the no-op
multiplier `1`, and the multiplier it applies is not strictly positive. -/
theorem zoomMultiplier_zero_is_zero :
    zoomMultiplier 0 = 0 ∧ zoomMultiplier 0 ≠ 1 ∧ ¬ (0 < zoomMultiplier 0) := by
  norm_num [zoomMultiplier]

/-- C2 (amended): the multiplier is `1/zf` for `zf > 0` and `|zf|` for
`zf < 0`, and it is strictly positive for every nonzero `zf`; the positivity
claim fails only at `zf = 0`, where the code silently applies multiplier `0`. -/
theorem zoomMultiplier_cases_pos (zf : ℤ) (hz : zf ≠ 0) :
    (0 < zf → zoomMultiplier zf = 1 / (zf : ℚ)) ∧
    (zf < 0 → zoomMultiplier zf = |(zf : ℚ)|) ∧
    0 < zoomMultiplier zf := by
  refine ⟨fun h => ?_, fun h => ?_, zoomMultiplier_pos zf hz⟩
  · rw [zoomMultiplier, if_pos h]
  · rw [zoomMultiplier, if_neg (by omega)]

/-- Witness for `zoomMultiplier_cases_pos` at `zf = -7`. -/
theorem zoomMultiplier_cases_pos_witness :
    (0 < (-7 : ℤ) → zoomMultiplier (-7) = 1 / ((-7 : ℤ) : ℚ)) ∧
    ((-7 : ℤ) < 0 → zoomMultiplier (-7) = |((-7 : ℤ) : ℚ)|) ∧
    0 < zoomMultiplier (-7) :=
  zoomMultiplier_cases_pos (-7) (by norm_num)

/-- C7 counterexample: a single interaction with `zoom_factor = 0` (allowed by
the slider range) drives `total_zoom` to `0`, so `cumulativeZoom > 0` fails. -/
theorem totalZoom_zero_after_zero_zoomFactor :
    (-1000 ≤ (0 : ℤ) ∧ (0 : ℤ) ≤ 1000) ∧
    totalZoomAfter [0] = 0 ∧ ¬ (0 < totalZoomAfter [0]) := by
  norm_num [totalZoomAfter, zoomMultiplier]

/-- C7 (amended to nonzero zoom factors): starting from `1.0`, `total_zoom`
is the running product of the per-step multipliers, and it stays strictly
positive after every interaction provided no interaction used
`zoomFactorSetting = 0`. -/
theorem totalZoom_running_product_pos (zfs : List ℤ)
    (hne : ∀ zf ∈ zfs, zf ≠ 0)
    (hrange : ∀ zf ∈ zfs, -1000 ≤ zf ∧ zf ≤ 1000) :
    totalZoomAfter [] = 1 ∧
    totalZoomAfter zfs = (zfs.map zoomMultiplier).prod ∧
    ∀ n, 0 < totalZoomAfter (zfs.take n) := by
  refine ⟨rfl, ?_, fun n => ?_⟩
  · rw [List.prod_eq_foldl, List.foldl_map]
    rfl
  · exact totalZoom_foldl_pos _ (fun zf hm => hne zf (List.take_subset n zfs hm))
      1 one_pos

/-- Witness for `totalZoom_running_product_pos` on the interaction sequence
`[2, -3]`. -/
theorem totalZoom_running_product_pos_witness :
    totalZoomAfter [] = 1 ∧
    totalZoomAfter [2, -3] = ([2, -3].map zoomMultiplier).prod ∧
    0 < totalZoomAfter ([2, -3].take 1) :=
  ⟨(totalZoom_running_product_pos [2, -3] (by decide) (by decide)).1,
   (totalZoom_running_product_pos [2, -3] (by decide) (by decide)).2.1,
   (totalZoom_running_product_pos [2, -3] (by decide) (by decide)).2.2 1⟩

/-- C9: clicking the exact center pixel `(800, 450)` of the 1600×900 canvas
with `zoom_factor = 1` (multiplier `1/1 = 1`) reproduces the viewport exactly
(in exact arithmetic, hence within any floating-point tolerance). -/
theorem center_click_zoom_one_identity (v : Viewport)
    (hx : v.x_min < v.x_max) (hy : v.y_min < v.y_max) :
    recenterAndZoom v 800 450 1 = v := by
  have hm : zoomMultiplier 1 = 1 := by norm_num [zoomMultiplier]
  cases v with
  | mk xa xb ya yb =>
      simp only [recenterAndZoom, clickToPlaneX, clickToPlaneY, hm,
        Viewport.mk.injEq]
      refine ⟨by ring, by ring, by ring, by ring⟩

/-- Witness for `center_click_zoom_one_identity` at the initial viewport. -/
theorem center_click_zoom_one_identity_witness :
    recenterAndZoom ⟨-5/2, 1, -5/4, 5/4⟩ 800 450 1 = ⟨-5/2, 1, -5/4, 5/4⟩ :=
  center_click_zoom_one_identity ⟨-5/2, 1, -5/4, 5/4⟩ (by norm_num) (by norm_num)

/-- C3 counterexample: the 1×1 grid over `[0,0] × [0,0]` with `maxIter = 1`
samples exactly `c = 0 + 0i`, the cell never escapes, yet the recorded value
is `0` (the initial `div_time`), not the claimed never-escaped sentinel
`maxIter = 1`. -/
theorem origin_cell_records_zero_not_maxIter :
    (linspace 0 0 1).getD 0 0 = 0 ∧
    mandelbrot 1 1 0 0 0 0 1 = [[0]] ∧
    ((mandelbrot 1 1 0 0 0 0 1).getD 0 []).getD 0 0 ≠ 1 := by
  refine ⟨by norm_num [linspace, List.range_succ], ?_, ?_⟩ <;>
    norm_num [mandelbrot, sampleGrid, linspace, map2, zip2With, gridStep,
      cellStep, List.range_succ]

/-- C3 (amended): a cell sampling `c = 0 + 0i` never escapes — its iterate
stays `0` and its `div_time` flag is never set — and the value recorded in the
returned grid is `0`, the initial `div_time` value doubling as the code's
never-escaped sentinel (not `maxIter`). -/
theorem origin_cell_never_escapes (h w : ℕ) (xa xb ya yb : ℚ) (m j k : ℕ)
    (hj : j < h) (hk : k < w)
    (hx : (linspace xa xb w).getD k 0 = 0)
    (hy : (linspace ya yb h).getD j 0 = 0) :
    cellFold (0, 0) m = (((0 : ℚ), (0 : ℚ)), 0) ∧
    ((mandelbrot h w xa xb ya yb m).getD j []).getD k 0 = 0 := by
  refine ⟨cellFold_origin m, ?_⟩
  rw [mandelbrot_getD h w xa xb ya yb m j k hj hk, hx, hy]
  unfold divTime
  rw [cellFold_origin]

/-- Witness for `origin_cell_never_escapes`: the 1×1 grid over
`[0,0] × [0,0]` with `maxIter = 5`. -/
theorem origin_cell_never_escapes_witness :
    cellFold (0, 0) 5 = (((0 : ℚ), (0 : ℚ)), 0) ∧
    ((mandelbrot 1 1 0 0 0 0 5).getD 0 []).getD 0 0 = 0 :=
  origin_cell_never_escapes 1 1 0 0 0 0 5 0 0 (by norm_num) (by norm_num)
    (by norm_num [linspace, List.range_succ]) (by norm_num [linspace, List.range_succ])

/-- C5 counterexample: the 1×1 grid over `[3,3] × [0,0]` samples `c = 3 + 0i`
and `maxIter = 1 ≥ 1` runs the escape test (which fires on the first pass),
but the recorded value is the loop index `0`, not `1`. -/
theorem escaper_three_records_zero_at_maxIter_one :
    (linspace 3 3 1).getD 0 0 = 3 ∧ (linspace 0 0 1).getD 0 0 = 0 ∧
    mandelbrot 1 1 3 3 0 0 1 = [[0]] ∧
    ((mandelbrot 1 1 3 3 0 0 1).getD 0 []).getD 0 0 ≠ 1 := by
  refine ⟨by norm_num [linspace, List.range_succ],
    by norm_num [linspace, List.range_succ], ?_, ?_⟩ <;>
    norm_num [mandelbrot, sampleGrid, linspace, map2, zip2With, gridStep,
      cellStep, List.range_succ]

/-- C5 (amended): a cell sampling `c = 3 + 0i` records value `1` whenever
`maxIter ≥ 2`.  The escape test fires already on the first pass (index 0), but
recording `0` collides with the unvisited sentinel, so the cell is iterated
once more and records `1` on the second pass; with `maxIter = 1` the recorded
value is `0`. -/
theorem escaper_three_records_one (h w : ℕ) (xa xb ya yb : ℚ) (m j k : ℕ)
    (hm : 2 ≤ m) (hj : j < h) (hk : k < w)
    (hx : (linspace xa xb w).getD k 0 = 3)
    (hy : (linspace ya yb h).getD j 0 = 0) :
    ((mandelbrot h w xa xb ya yb m).getD j []).getD k 0 = 1 := by
  rw [mandelbrot_getD h w xa xb ya yb m j k hj hk, hx, hy]
  unfold divTime
  rw [cellFold_three m hm]

/-- Witness for `escaper_three_records_one`: the 1×1 grid over
`[3,3] × [0,0]` with `maxIter = 2`. -/
theorem escaper_three_records_one_witness :
    ((mandelbrot 1 1 3 3 0 0 2).getD 0 []).getD 0 0 = 1 :=
  escaper_three_records_one 1 1 3 3 0 0 2 0 0 (by norm_num) (by norm_num)
    (by norm_num) (by norm_num [linspace, List.range_succ])
    (by norm_num [linspace, List.range_succ])

/-- C6 counterexample: `mandelbrot` performs no input validation.  Called with
`x_min = 1 > 0 = x_max` and `y_min = 1 > 0 = y_max` (ordering violated) it
does not fail with any error: it returns the ordinary 1×1 grid `[[0]]`. -/
theorem mandelbrot_returns_grid_on_invalid_viewport :
    ¬ ((1 : ℚ) < 0) ∧
    mandelbrot 1 1 1 0 1 0 1 = [[0]] := by
  refine ⟨by norm_num, ?_⟩
  norm_num [mandelbrot, sampleGrid, linspace, map2, zip2With, gridStep,
    cellStep, List.range_succ]

/-- C6 (amended): `mandelbrot` is a total function with no failure path: for
every input — whether or not `x_min < x_max` and `y_min < y_max` hold — it
returns a grid of exactly `h` rows of `w` entries each. -/
theorem mandelbrot_total_shape (h w : ℕ) (xa xb ya yb : ℚ) (m : ℕ) :
    (mandelbrot h w xa xb ya yb m).length = h ∧
    ∀ row ∈ mandelbrot h w xa xb ya yb m, row.length = w :=
  ⟨mandelbrot_length h w xa xb ya yb m,
   fun row hrow => mandelbrot_row_length h w xa xb ya yb m row hrow⟩

/-- Witness for `mandelbrot_total_shape` on a 1×1 grid with inverted bounds. -/
theorem mandelbrot_total_shape_witness :
    (mandelbrot 1 1 1 0 1 0 1).length = 1 ∧ ([0] : List ℕ).length = 1 :=
  ⟨(mandelbrot_total_shape 1 1 1 0 1 0 1).1,
   (mandelbrot_total_shape 1 1 1 0 1 0 1).2 [0]
     (by norm_num [mandelbrot, sampleGrid, linspace, map2, zip2With, gridStep,
        cellStep, List.range_succ])⟩

/-- C10: with `maxIter ≥ 1`, every entry of the returned grid lies in
`[0, maxIter - 1]`; in particular the value `maxIter` itself is never
returned (escape at loop index `i` records `i ≤ maxIter - 1`, and cells whose
escape test never fires keep the initial value `0`). -/
theorem mandelbrot_values_le_maxIter_sub_one (h w : ℕ) (xa xb ya yb : ℚ)
    (m : ℕ) (hm : 1 ≤ m) :
    ∀ row ∈ mandelbrot h w xa xb ya yb m, ∀ v ∈ row, v ≤ m - 1 ∧ v ≠ m := by
  intro row hrow v hv
  rw [mandelbrot_eq] at hrow
  simp only [map2, sampleGrid, List.map_map, List.mem_map, Function.comp] at hrow
  obtain ⟨yv, _, hrow⟩ := hrow
  rw [← hrow] at hv
  simp only [List.map_map, List.mem_map, Function.comp] at hv
  obtain ⟨xv, _, hv⟩ := hv
  have hlt := divTime_lt (xv, yv) m hm
  rw [hv] at hlt
  omega

/-- Witness for `mandelbrot_values_le_maxIter_sub_one` on the 1×1 grid over
`[0,0] × [0,0]` with `maxIter = 1`, whose single entry is `0`. -/
theorem mandelbrot_values_le_maxIter_sub_one_witness :
    (0 : ℕ) ≤ 1 - 1 ∧ (0 : ℕ) ≠ 1 :=
  mandelbrot_values_le_maxIter_sub_one 1 1 0 0 0 0 1 (by norm_num) [0]
    (by norm_num [mandelbrot, sampleGrid, linspace, map2, zip2With, gridStep,
       cellStep, List.range_succ]) 0 (by norm_num)

/-- C4 counterexample: for the viewport `x ∈ [0,1]` and pixel column `k = 1`,
the click handler maps the pixel to `1/1600` (denominator `width`), while the
sample grid of `mandelbrot` places column `1` at `1/1599` (denominator
`width − 1`, from `np.linspace`): the two pixel-to-plane mappings are not the
same function. -/
theorem click_mapping_differs_from_sample_grid :
    clickToPlaneX 0 1 1 = 1 / 1600 ∧
    (linspace 0 1 1600).getD 1 0 = 1 / 1599 ∧
    clickToPlaneX 0 1 1 ≠ (linspace 0 1 1600).getD 1 0 := by
  have h : (linspace 0 1 1600).getD 1 0 = 1 / 1599 := by
    rw [linspace_getD 0 1 1600 1 (by norm_num)]
    norm_num
  refine ⟨by norm_num [clickToPlaneX], h, ?_⟩
  rw [h]
  norm_num [clickToPlaneX]

/-- C4 (amended): the two mappings disagree: the click handler interpolates
with denominator `width` (resp. `height`), the sample grid of `mandelbrot`
with denominator `width − 1` (resp. `height − 1`); for a pixel column `k`
(resp. row `j`) they produce the same plane coordinate exactly when `k = 0`
(resp. `j = 0`) or the viewport range is degenerate. -/
theorem click_vs_sample_mapping (xa xb ya yb : ℚ) (k j : ℕ)
    (hk : k < 1600) (hj : j < 900) :
    ((linspace xa xb 1600).getD k 0 = clickToPlaneX xa xb k ↔ (k = 0 ∨ xb = xa)) ∧
    ((linspace ya yb 900).getD j 0 = clickToPlaneY ya yb j ↔ (j = 0 ∨ yb = ya)) := by
  constructor
  · rw [linspace_getD xa xb 1600 k hk]
    norm_num [clickToPlaneX]
    constructor
    · intro h
      have h2 : (k : ℚ) * (xb - xa) = 0 := by
        field_simp at h
        nlinarith [h]
      rcases mul_eq_zero.mp h2 with h4 | h4
      · left; exact_mod_cast h4
      · right; linarith
    · intro h
      rcases h with h | h
      · subst h; push_cast; ring
      · rw [h]; ring
  · rw [linspace_getD ya yb 900 j hj]
    norm_num [clickToPlaneY]
    constructor
    · intro h
      have h2 : (j : ℚ) * (yb - ya) = 0 := by
        field_simp at h
        nlinarith [h]
      rcases mul_eq_zero.mp h2 with h4 | h4
      · left; exact_mod_cast h4
      · right; linarith
    · intro h
      rcases h with h | h
      · subst h; push_cast; ring
      · rw [h]; ring

/-- Witness for `click_vs_sample_mapping` at the initial viewport and pixel
`(0, 0)`. -/
theorem click_vs_sample_mapping_witness :
    ((linspace (-5/2) 1 1600).getD 0 0 = clickToPlaneX (-5/2) 1 0
        ↔ ((0 : ℕ) = 0 ∨ (1 : ℚ) = -5/2)) ∧
    ((linspace (-5/4) (5/4) 900).getD 0 0 = clickToPlaneY (-5/4) (5/4) 0
        ↔ ((0 : ℕ) = 0 ∨ (5/4 : ℚ) = -5/4)) :=
  click_vs_sample_mapping (-5/2) 1 (-5/4) (5/4) 0 0 (by norm_num) (by norm_num)

/-- C8: in the discrete-time model of the quality-upgrade loop started at the
draft state right after an interaction (`elapsed = 0`): if no interaction is
observed through the 10-unit idle threshold, the loop issues exactly one
high-iteration render request (`max_iter = 500`) and ends with quality
`high` (refined); if the first interaction is observed at any poll before or
at the threshold (e.g. an interaction arriving at time 9.9 is observed at the
poll at 10), no high-iteration request is issued and quality stays
`very_low` (the draft cycle restarts). -/
theorem upgradeLoop_draft_refine_spec (interaction : ℕ → Bool) :
    ((∀ t, t ≤ 10 → interaction t = false) →
        upgradeLoop interaction 0 = ⟨[500], Quality.high⟩) ∧
    (∀ t₀, 1 ≤ t₀ → t₀ ≤ 10 → interaction t₀ = true →
        (∀ s, s < t₀ → interaction s = false) →
        upgradeLoop interaction 0 = ⟨[], Quality.very_low⟩) := by
  constructor
  · intro h
    exact upgradeLoop_quiet interaction h 10 0 (by omega)
  · intro t₀ h1 h10 ht hq
    exact upgradeLoop_break interaction t₀ ht hq h10 t₀ 0 (by omega) (by omega)

/-- Witness for `upgradeLoop_draft_refine_spec`: a session with no interaction
at all, and a session whose first interaction is observed at the poll at 10. -/
theorem upgradeLoop_draft_refine_spec_witness :
    upgradeLoop (fun _ => false) 0 = ⟨[500], Quality.high⟩ ∧
    upgradeLoop (fun t => decide (t = 10)) 0 = ⟨[], Quality.very_low⟩ :=
  ⟨(upgradeLoop_draft_refine_spec (fun _ => false)).1 (fun _ _ => rfl),
   (upgradeLoop_draft_refine_spec (fun t => decide (t = 10))).2 10 (by norm_num)
     (by norm_num) (by simp) (fun s hs => by simp [Nat.ne_of_lt hs])⟩
